import Mathlib

/-!
Shallow embedding of the analytics pipeline of `run.py` (GDPR impact
analysis charts).  Numeric cell values are modelled as exact rationals;
the IEEE special values produced by the pandas operations the script
uses (`NaN` from failed coercion or 0/0, signed infinities from division
by zero) are modelled explicitly by the type `FV`.  Fallible coercion
(`pd.to_numeric(errors="coerce")`) is modelled by `Option ℚ`: `none` is
the `NaN` a failed coercion leaves in a column.
-/

/-- A pandas float cell: a finite rational, `+inf`, `-inf`, or `NaN`. -/
inductive FV where
  | fin : ℚ → FV
  | inf : FV
  | ninf : FV
  | nan : FV
deriving DecidableEq, Repr

namespace FV

/-- `np.isnan` on a cell. -/
def isNan : FV → Bool
  | nan => true
  | _ => false

/-- IEEE addition on cells (used by `prev_idx * (1 + growth/100)`). -/
def add : FV → FV → FV
  | nan, _ => nan
  | _, nan => nan
  | inf, ninf => nan
  | ninf, inf => nan
  | inf, _ => inf
  | _, inf => inf
  | ninf, _ => ninf
  | _, ninf => ninf
  | fin a, fin b => fin (a + b)

/-- IEEE subtraction on cells (used by `pct_change`'s `x/y - 1`). -/
def sub : FV → FV → FV
  | nan, _ => nan
  | _, nan => nan
  | inf, inf => nan
  | ninf, ninf => nan
  | inf, _ => inf
  | ninf, _ => ninf
  | _, inf => ninf
  | _, ninf => inf
  | fin a, fin b => fin (a - b)

/-- IEEE multiplication on cells. -/
def mul : FV → FV → FV
  | nan, _ => nan
  | _, nan => nan
  | inf, inf => inf
  | inf, ninf => ninf
  | ninf, inf => ninf
  | ninf, ninf => inf
  | inf, fin b => if b = 0 then nan else if 0 < b then inf else ninf
  | fin a, inf => if a = 0 then nan else if 0 < a then inf else ninf
  | ninf, fin b => if b = 0 then nan else if 0 < b then ninf else inf
  | fin a, ninf => if a = 0 then nan else if 0 < a then ninf else inf
  | fin a, fin b => fin (a * b)

/-- IEEE division on cells: a finite value divided by zero gives a signed
infinity, `0/0` gives `NaN` (this is what `pandas.Series.pct_change`
produces on a zero prior value). -/
def div : FV → FV → FV
  | nan, _ => nan
  | _, nan => nan
  | inf, inf => nan
  | inf, ninf => nan
  | ninf, inf => nan
  | ninf, ninf => nan
  | inf, fin b => if 0 ≤ b then inf else ninf
  | ninf, fin b => if 0 ≤ b then ninf else inf
  | fin _, inf => fin 0
  | fin _, ninf => fin 0
  | fin a, fin b =>
      if b = 0 then (if 0 < a then inf else if a < 0 then ninf else nan)
      else fin (a / b)

end FV

/-- A calendar date as `datetime(year, month, day)` uses it. -/
structure PyDate where
  year : ℤ
  month : ℤ
  day : ℤ
deriving DecidableEq, Repr

/-- Fractional-year x-coordinate `date.year + (date.month - 1) / 12`
computed by `add_regulation_lines` for every marker it places. -/
def xPos (d : PyDate) : ℚ :=
  (d.year : ℚ) + ((d.month : ℚ) - 1) / 12

/-- The `REGULATIONS` dict of `run.py` (insertion order preserved). -/
def REGULATIONS : List (String × PyDate) :=
  [("GDPR", ⟨2018, 5, 25⟩),
   ("DSA", ⟨2022, 11, 16⟩),
   ("DMA", ⟨2023, 5, 2⟩),
   ("AI Act", ⟨2025, 2, 2⟩)]

/-- `COVID_START = datetime(2020, 3, 11)`. -/
def COVID_START : PyDate := ⟨2020, 3, 11⟩

/-- `COVID_END = datetime(2023, 5, 1)`. -/
def COVID_END : PyDate := ⟨2023, 5, 1⟩

/-- One drawing primitive issued by `add_regulation_lines`: the shaded
`axvspan`, a vertical `axvline`, or a rotated `ax.text` label.  (The
label's y-position comes from mutable axis state and is not part of the
model; its x-position and string are.) -/
inductive DrawOp where
  | span : ℚ → ℚ → DrawOp
  | vline : ℚ → DrawOp
  | text : ℚ → String → DrawOp
deriving DecidableEq, Repr

/-- The sequence of drawing primitives `add_regulation_lines(ax, start_year)`
issues: the COVID shading unconditionally, then for each regulation whose
year is at least `start_year` a vertical line at its fractional-year
position and a text label offset by `0.1`. -/
def add_regulation_lines (start_year : ℤ) : List DrawOp :=
  DrawOp.span (xPos COVID_START) (xPos COVID_END) ::
    REGULATIONS.flatMap fun nd =>
      if start_year ≤ nd.2.year then
        [DrawOp.vline (xPos nd.2), DrawOp.text (xPos nd.2 + 1/10) nd.1]
      else []

/-- One melted row of an OECD table: `(Time period, Year, Value)` where
`Year` and `Value` are float columns that may hold `NaN` (`none`). -/
def LongRow : Type := String × Option ℚ × Option ℚ

instance : DecidableEq LongRow := by
  unfold LongRow
  infer_instance

/-- A wide OECD table: the `Time period` entity column, and one data
column per year label.  A column is its header together with its cells,
both recorded as the result `pd.to_numeric(·, errors="coerce")` gives on
them (`none` when coercion fails and leaves `NaN`). -/
structure WideTable where
  entities : List String
  cols : List (Option ℚ × List (Option ℚ))

/-- `df.melt(id_vars=["Time period"], var_name="Year", value_name="Value")`:
column-major traversal pairing each data column's header with each row's
entity and cell. -/
def melt (t : WideTable) : List LongRow :=
  t.cols.flatMap fun c => (t.entities.zip c.2).map fun ec => (ec.1, c.1, ec.2)

/-- The year filter of `prepare_oecd_data`: `df_melted["Year"] >= 2010`
after numeric coercion; a `NaN` year compares false and is dropped. -/
def yearKeep (r : LongRow) : Bool :=
  match r.2.1 with
  | some y => decide (2010 ≤ y)
  | none => false

/-- The `dropna(subset=["Value", "Year"])` filter of `prepare_oecd_data`. -/
def dropnaKeep (r : LongRow) : Bool :=
  r.2.2.isSome && r.2.1.isSome

/-- The year-filter and dropna stage of `prepare_oecd_data`, applied to an
already-melted long table. -/
def filterStage (rows : List LongRow) : List LongRow :=
  (rows.filter yearKeep).filter dropnaKeep

/-- `prepare_oecd_data(df)`: melt to long form, coerce the year labels,
keep years at least 2010, coerce the values, drop rows with missing
`Value` or `Year`. -/
def prepare_oecd_data (t : WideTable) : List LongRow :=
  filterStage (melt t)

/-- The columns of the reshaper's long output `df_melted`. -/
def meltOutputColumns : List String := ["Time period", "Year", "Value"]

/-- Re-running `prepare_oecd_data` on its own long output: its first
statement, `df.melt(id_vars=["Time period"], var_name="Year",
value_name="Value")`, validates `value_name` against the frame's columns
(pandas >= 1.1) and raises `ValueError` because the frame already has a
`Value` column, before any reshaping, coercion or filtering runs.  (Were
the validation ever to pass, melt would treat `Year` and `Value` as data
columns whose string headers fail numeric coercion.) -/
def resubmit_prepare_oecd_data (rows : List LongRow) : Except String (List LongRow) :=
  if "Value" ∈ meltOutputColumns then
    Except.error "value_name (Value) cannot match an element in the DataFrame columns."
  else
    Except.ok (filterStage
      (melt ⟨rows.map fun r => r.1,
        [(none, rows.map fun r => r.2.1), (none, rows.map fun r => r.2.2)]⟩))

/-- A pandas group key `(geo, TIME_PERIOD)` / `(Country or Area, Year)`. -/
abbrev GKey := String × ℤ

/-- The lexicographic order pandas `groupby` sorts group keys by. -/
def keyLE (a b : GKey) : Prop :=
  a.1 < b.1 ∨ (a.1 = b.1 ∧ a.2 ≤ b.2)

instance : DecidableRel keyLE := fun a b => by
  unfold keyLE
  infer_instance

instance : IsTotal GKey keyLE := ⟨by
  intro a b
  rcases lt_trichotomy a.1 b.1 with h | h | h
  · exact Or.inl (Or.inl h)
  · rcases le_total a.2 b.2 with h2 | h2
    · exact Or.inl (Or.inr ⟨h, h2⟩)
    · exact Or.inr (Or.inr ⟨h.symm, h2⟩)
  · exact Or.inr (Or.inl h)⟩

instance : IsTrans GKey keyLE := ⟨by
  intro a b c hab hbc
  rcases hab with h1 | ⟨e1, h1⟩
  · rcases hbc with h2 | ⟨e2, h2⟩
    · exact Or.inl (h1.trans h2)
    · exact Or.inl (e2 ▸ h1)
  · rcases hbc with h2 | ⟨e2, h2⟩
    · exact Or.inl (e1.symm ▸ h2)
    · exact Or.inr ⟨e1.trans e2, h1.trans h2⟩⟩

instance : IsAntisymm GKey keyLE := ⟨by
  intro a b hab hba
  rcases hab with h1 | ⟨e1, h1⟩
  · rcases hba with h2 | ⟨e2, h2⟩
    · exact (lt_asymm h1 h2).elim
    · exact (lt_irrefl a.1 (e2 ▸ h1)).elim
  · rcases hba with h2 | ⟨e2, h2⟩
    · exact (lt_irrefl b.1 (e1.symm ▸ h2)).elim
    · exact Prod.ext e1 (le_antisymm h1 h2)⟩

/-- The sorted list of distinct group keys `groupby` produces (pandas
sorts group keys; duplicates are collapsed). -/
def groupKeys (rows : List (GKey × Option ℚ)) : List GKey :=
  List.insertionSort keyLE ((rows.map fun r => r.1).dedup)

/-- The column of values belonging to one group key, in row order. -/
def matchingVals (rows : List (GKey × Option ℚ)) (k : GKey) : List (Option ℚ) :=
  (rows.filter fun r => decide (r.1 = k)).map fun r => r.2

/-- `pandas.Series.mean()`: the arithmetic mean of the non-`NaN` entries,
`NaN` (`none`) when there are none (in particular on an empty series). -/
def meanSkipNa (vs : List (Option ℚ)) : Option ℚ :=
  let xs := vs.filterMap id
  if xs = [] then none else some (xs.sum / (xs.length : ℚ))

/-- `df.groupby([entity, period])[value].mean().reset_index()`: one row
per distinct key in sorted key order, holding the group's mean. -/
def groupMean (rows : List (GKey × Option ℚ)) : List (GKey × Option ℚ) :=
  (groupKeys rows).map fun k => (k, meanSkipNa (matchingVals rows k))

/-- The pre/post-cutoff comparison: mean of the values at periods strictly
before the cutoff and mean of those at or after it, each replaced by `0`
when it is `NaN` (`before if not np.isnan(before) else 0`). -/
def prePostMeans (rows : List (ℚ × Option ℚ)) (c : ℚ) : ℚ × ℚ :=
  let pre := meanSkipNa ((rows.filter fun r => decide (r.1 < c)).map fun r => r.2)
  let post := meanSkipNa ((rows.filter fun r => decide (c ≤ r.1)).map fun r => r.2)
  (pre.getD 0, post.getD 0)

/-- Forward fill carrying the last non-`NaN` value (the `pad` fill
`pct_change` applies to its input before differencing). -/
def padFillGo : FV → List FV → List FV
  | _, [] => []
  | last, x :: xs =>
      if x.isNan then last :: padFillGo last xs else x :: padFillGo x xs

/-- `Series.ffill()` starting from no prior value. -/
def padFill (xs : List FV) : List FV := padFillGo FV.nan xs

/-- `Series.pct_change()`: pad-fill, then element-wise `cur / prev - 1`
against the series shifted by one (the first prior value is `NaN`). -/
def pct_change (xs : List FV) : List FV :=
  List.zipWith (fun cur prev => (cur.div prev).sub (FV.fin 1))
    (padFill xs) (FV.nan :: padFill xs)

/-- The `Growth_Rate` column: `Series.pct_change() * 100`. -/
def Growth_Rate (xs : List FV) : List FV :=
  (pct_change xs).map fun g => g.mul (FV.fin 100)

/-- One step of the cumulative-index loop: when the growth value is `NaN`
the assignment is skipped, so the row KEEPS ITS INITIALISED `100.0` (a
reset, not a carry-forward of the previous index); otherwise the row is
overwritten with `prev_idx * (1 + growth/100)`. -/
def cumIdxStep (prev g : FV) : FV :=
  if g.isNan then FV.fin 100 else prev.mul ((FV.fin 1).add (g.div (FV.fin 100)))

/-- The loop body of the `Cumulative_Index` fold over positions `1..n-1`. -/
def cumGo : FV → List FV → List FV
  | _, [] => []
  | prev, g :: gs => cumIdxStep prev g :: cumGo (cumIdxStep prev g) gs

/-- The `Cumulative_Index` column: the whole column is initialised to
`100.0`, then positions `1..n-1` are overwritten left to right with
`prev * (1 + growth/100)` whenever the growth there is not `NaN` (the
growth at position 0 is never read). -/
def Cumulative_Index : List FV → List FV
  | [] => []
  | _ :: gs => FV.fin 100 :: cumGo (FV.fin 100) gs

/-- Reading a float column that may hold `NaN` into `FV` cells. -/
def optToFV : Option ℚ → FV
  | some q => FV.fin q
  | none => FV.nan

/-- The non-missing values of a series at periods strictly before the
cutoff (the `Growth_Rate`/`Value` entries `mean()` actually averages). -/
def preVals (rows : List (ℚ × Option ℚ)) (c : ℚ) : List ℚ :=
  ((rows.filter fun r => decide (r.1 < c)).map fun r => r.2).filterMap id

/-- The non-missing values of a series at periods at or after the cutoff. -/
def postVals (rows : List (ℚ × Option ℚ)) (c : ℚ) : List ℚ :=
  ((rows.filter fun r => decide (c ≤ r.1)).map fun r => r.2).filterMap id

/-- A concrete wide table: entity `Germany` with year columns `2017`,
`2018`, `2019`, the value under `2019` failing numeric coercion. -/
def tGermany : WideTable :=
  ⟨["Germany"], [(some 2017, [some 4]), (some 2018, [some 6]), (some 2019, [none])]⟩

/-- A concrete wide table whose single year header coerces to the
non-integer number `2010.5` (e.g. the column label `"2010.5"`). -/
def tFrac : WideTable :=
  ⟨["DE"], [(some (4021/2), [some 1])]⟩

lemma cumGo_length (gs : List FV) : ∀ p, (cumGo p gs).length = gs.length := by
  induction gs with
  | nil => intro p; rfl
  | cons g t ih => intro p; simp [cumGo, ih]

lemma cumGo_getElem_zero (p : FV) (gs : List FV) :
    (cumGo p gs)[0]? = (gs[0]?).map fun g => cumIdxStep p g := by
  cases gs with
  | nil => rfl
  | cons g t => simp [cumGo]

lemma cumGo_getElem_succ :
    ∀ (gs : List FV) (p : FV) (i : ℕ),
      (cumGo p gs)[i+1]? =
        ((cumGo p gs)[i]?).bind fun prev => (gs[i+1]?).map fun g => cumIdxStep prev g
  | [], _, _ => by simp [cumGo]
  | g :: t, p, 0 => by
      cases t with
      | nil => simp [cumGo]
      | cons g2 t2 => simp [cumGo, cumGo_getElem_zero]
  | g :: t, p, i + 1 => by
      simpa [cumGo] using cumGo_getElem_succ t (cumIdxStep p g) i

lemma Cumulative_Index_getElem_succ (gs : List FV) (i : ℕ) :
    (Cumulative_Index gs)[i+1]? =
      ((Cumulative_Index gs)[i]?).bind fun prev => (gs[i+1]?).map fun g => cumIdxStep prev g := by
  cases gs with
  | nil => simp [Cumulative_Index]
  | cons g t =>
      cases i with
      | zero => simp [Cumulative_Index, cumGo_getElem_zero]
      | succ j => simpa [Cumulative_Index] using cumGo_getElem_succ t (FV.fin 100) j

lemma cumGo_replicate_nan : ∀ (k : ℕ) (p : FV),
    cumGo p (List.replicate k FV.nan) = List.replicate k (FV.fin 100)
  | 0, _ => rfl
  | k + 1, p => by
      simp [List.replicate, cumGo, cumIdxStep, FV.isNan, cumGo_replicate_nan k]

/-- C1 counterexample: on growth `[_, 10, NaN]` the code leaves the entry
at the missing-growth period at its INITIALISED `100.0` (a reset), not at
the previous index `110.0` that the claim's carry-forward clause demands. -/
theorem cumulative_index_counterexample :
    Cumulative_Index [FV.nan, FV.fin 10, FV.nan] = [FV.fin 100, FV.fin 110, FV.fin 100]
    ∧ FV.fin (100 : ℚ) ≠ FV.fin 110 := by
  constructor
  · norm_num [Cumulative_Index, cumGo, cumIdxStep, FV.mul, FV.add, FV.div, FV.isNan]
  · intro h
    injection h with h1
    norm_num at h1

/-- C1 amended.  Cumulative index construction: the index series has one
entry per growth entry; the entry at the first period is `100.0`; each
subsequent entry equals the previous entry multiplied by `1 + growth/100`
when the growth there is present, and is LEFT AT ITS INITIALISED BASE
VALUE `100.0` (a reset, not a carry-forward of the previous index) when
the growth is missing; growth `[_, 10, -10]` still yields
`[100.0, 110.0, 99.0]`, and a series whose growth is missing at every
period after the first still yields `100.0` at every period. -/
theorem cumulative_index_spec (gs : List FV) :
    (Cumulative_Index gs).length = gs.length
    ∧ (Cumulative_Index gs)[0]? = (gs[0]?).map (fun _ => FV.fin 100)
    ∧ (∀ i : ℕ, (Cumulative_Index gs)[i+1]? =
        ((Cumulative_Index gs)[i]?).bind fun prev => (gs[i+1]?).map fun g =>
          if g.isNan then FV.fin 100 else prev.mul ((FV.fin 1).add (g.div (FV.fin 100))))
    ∧ Cumulative_Index [FV.nan, FV.fin 10, FV.fin (-10)] = [FV.fin 100, FV.fin 110, FV.fin 99]
    ∧ (∀ (g0 : FV) (k : ℕ), Cumulative_Index (g0 :: List.replicate k FV.nan) =
        FV.fin 100 :: List.replicate k (FV.fin 100)) := by
  refine ⟨?_, ?_, ?_, ?_, ?_⟩
  · cases gs with
    | nil => rfl
    | cons g t => simp [Cumulative_Index, cumGo_length]
  · cases gs with
    | nil => rfl
    | cons g t => simp [Cumulative_Index]
  · intro i
    simpa [cumIdxStep] using Cumulative_Index_getElem_succ gs i
  · norm_num [Cumulative_Index, cumGo, cumIdxStep, FV.mul, FV.add, FV.div, FV.isNan]
  · intro g0 k
    simp [Cumulative_Index, cumGo_replicate_nan]

lemma padFillGo_map_fin : ∀ (xs : List ℚ) (last : FV),
    padFillGo last (xs.map FV.fin) = xs.map FV.fin
  | [], _ => rfl
  | x :: t, last => by simp [padFillGo, FV.isNan, padFillGo_map_fin t]

lemma Growth_Rate_fin_zero (xs : List ℚ) :
    (Growth_Rate (xs.map FV.fin))[0]? = (xs[0]?).map (fun _ => FV.nan) := by
  cases xs with
  | nil => rfl
  | cons x t =>
      simp only [Growth_Rate, pct_change, padFill, padFillGo_map_fin]
      simp [FV.div, FV.sub, FV.mul]

lemma Growth_Rate_fin_succ (xs : List ℚ) (i : ℕ) :
    (Growth_Rate (xs.map FV.fin))[i+1]? =
      (xs[i+1]?).bind fun c => (xs[i]?).map fun p =>
        (((FV.fin c).div (FV.fin p)).sub (FV.fin 1)).mul (FV.fin 100) := by
  simp only [Growth_Rate, pct_change, padFill, padFillGo_map_fin,
    List.getElem?_map, List.getElem?_zipWith', List.getElem?_cons_succ]
  cases xs[i+1]? <;> cases xs[i]? <;> simp

/-- C3.  Year-over-year percent change on a finite-valued sorted series:
the entry at each position `i ≥ 1` is `(raw[i] - raw[i-1]) / raw[i-1] × 100`
when the prior value is nonzero; the entry at the first position is the
missing marker `NaN` and in particular never a (zero) number; and when the
prior value is zero the entry is a non-finite value (`inf`, `-inf` or
`NaN`), with no exception raised. -/
theorem growth_rate_spec (xs : List ℚ) (i : ℕ) :
    ((Growth_Rate (xs.map FV.fin))[0]? = (xs[0]?).map (fun _ => FV.nan))
    ∧ (∀ q : ℚ, (Growth_Rate (xs.map FV.fin))[0]? ≠ some (FV.fin q))
    ∧ (∀ p c : ℚ, xs[i]? = some p → xs[i+1]? = some c → p ≠ 0 →
        (Growth_Rate (xs.map FV.fin))[i+1]? = some (FV.fin ((c - p) / p * 100)))
    ∧ (∀ c : ℚ, xs[i]? = some 0 → xs[i+1]? = some c →
        ∀ q : ℚ, (Growth_Rate (xs.map FV.fin))[i+1]? ≠ some (FV.fin q)) := by
  refine ⟨Growth_Rate_fin_zero xs, ?_, ?_, ?_⟩
  · intro q
    rw [Growth_Rate_fin_zero]
    cases xs[0]? <;> simp
  · intro p c h1 h2 hp
    rw [Growth_Rate_fin_succ, h2, h1]
    simp [FV.div, hp, FV.sub, FV.mul]
    field_simp
  · intro c h1 h2 q
    rw [Growth_Rate_fin_succ, h2, h1]
    rcases lt_trichotomy c 0 with hc | hc | hc
    · simp [FV.div, FV.sub, FV.mul, hc, hc.asymm]
    · subst hc
      norm_num [FV.div, FV.sub, FV.mul]
      exact fun h => FV.noConfusion h
    · simp [FV.div, FV.sub, FV.mul, hc]

/-- Witness for C3 at the concrete series `[2, 3]`: the growth at the
second period is `(3 - 2) / 2 × 100 = 50`. -/
theorem growth_rate_spec_witness :
    (Growth_Rate ([(2 : ℚ), 3].map FV.fin))[1]? = some (FV.fin ((3 - 2) / 2 * 100)) :=
  (growth_rate_spec [2, 3] 0).2.2.1 2 3 rfl rfl (by norm_num)

/-- C8 counterexample: the constant series `[0, 0]` has growth `NaN`
(from `0/0`) at the second period, not `0`, so the claim fails for the
constant value `v = 0`. -/
theorem constant_growth_counterexample :
    (Growth_Rate ((List.replicate 2 (0 : ℚ)).map FV.fin))[1]? = some FV.nan
    ∧ some FV.nan ≠ some (FV.fin (0 : ℚ)) := by
  decide

/-- C8 amended: for every series constant at a NONZERO value `v`, the
year-over-year percent-change output at every period after the first is
exactly `0`; at `v = 0` the output is `NaN` instead (`0/0`). -/
theorem constant_growth_amended (v : ℚ) (n i : ℕ) (hv : v ≠ 0) (h : i + 1 < n) :
    (Growth_Rate ((List.replicate n v).map FV.fin))[i+1]? = some (FV.fin 0) := by
  have h1 : (List.replicate n v)[i]? = some v := by
    rw [List.getElem?_replicate]
    exact if_pos (by omega)
  have h2 : (List.replicate n v)[i+1]? = some v := by
    rw [List.getElem?_replicate]
    exact if_pos h
  rw [Growth_Rate_fin_succ, h2, h1]
  simp [FV.div, hv, FV.sub, FV.mul, div_self hv]

/-- Witness for the amended C8 at the constant series `[1, 1, 1]`. -/
theorem constant_growth_amended_witness :
    (Growth_Rate ((List.replicate 3 (1 : ℚ)).map FV.fin))[1]? = some (FV.fin 0) :=
  constant_growth_amended 1 3 0 one_ne_zero (by norm_num)

lemma meanSkipNa_getD (vs : List (Option ℚ)) :
    (meanSkipNa vs).getD 0 =
      if vs.filterMap id = [] then 0
      else (vs.filterMap id).sum / ((vs.filterMap id).length : ℚ) := by
  unfold meanSkipNa
  by_cases h : vs.filterMap id = [] <;> simp [h]

/-- C2.  Pre/post split around a cutoff `c`: the series is partitioned
into periods `< c` and periods `≥ c`; each partition is reduced to the
arithmetic mean of its non-missing values; an empty (or all-missing)
partition reports exactly `0` rather than a missing marker; and the empty
input series yields the pair `(0, 0)`. -/
theorem prePostMeans_spec (rows : List (ℚ × Option ℚ)) (c : ℚ) :
    (prePostMeans rows c).1 =
      (if preVals rows c = [] then 0 else (preVals rows c).sum / ((preVals rows c).length : ℚ))
    ∧ (prePostMeans rows c).2 =
      (if postVals rows c = [] then 0 else (postVals rows c).sum / ((postVals rows c).length : ℚ))
    ∧ prePostMeans [] c = (0, 0) := by
  refine ⟨?_, ?_, ?_⟩
  · show (meanSkipNa ((rows.filter fun r => decide (r.1 < c)).map fun r => r.2)).getD 0 = _
    rw [meanSkipNa_getD]
    rfl
  · show (meanSkipNa ((rows.filter fun r => decide (c ≤ r.1)).map fun r => r.2)).getD 0 = _
    rw [meanSkipNa_getD]
    rfl
  · rfl

/-- C6.  Fractional-year placement: every milestone date is placed at
`year + (month - 1) / 12` exactly; a date in May (month 5) of year `Y`
is placed at exactly `Y + 4/12`; the GDPR milestone is dated May 2018 and
is placed at exactly `2018 + 4/12`. -/
theorem fractional_year_spec :
    (∀ d : PyDate, xPos d = (d.year : ℚ) + ((d.month : ℚ) - 1) / 12)
    ∧ (∀ y dd : ℤ, xPos ⟨y, 5, dd⟩ = (y : ℚ) + 4 / 12)
    ∧ ("GDPR", (⟨2018, 5, 25⟩ : PyDate)) ∈ REGULATIONS
    ∧ xPos ⟨2018, 5, 25⟩ = 2018 + 4 / 12 := by
  refine ⟨fun d => rfl, ?_, ?_, ?_⟩
  · intro y dd
    norm_num [xPos]
  · simp [REGULATIONS]
  · norm_num [xPos]

lemma mem_of_getElem_some {α : Type} {l : List α} {i : ℕ} {a : α}
    (h : l[i]? = some a) : a ∈ l := by
  obtain ⟨hlt, he⟩ := List.getElem?_eq_some_iff.mp h
  exact he ▸ List.getElem_mem hlt

lemma mem_prepare (t : WideTable) (r : LongRow) (hr : r ∈ prepare_oecd_data t) :
    (∃ y, r.2.1 = some y ∧ (2010 : ℚ) ≤ y) ∧ ∃ v, r.2.2 = some v := by
  unfold prepare_oecd_data filterStage at hr
  have h2 : dropnaKeep r = true := (List.mem_filter.mp hr).2
  have h1 : yearKeep r = true := (List.mem_filter.mp (List.mem_filter.mp hr).1).2
  constructor
  · cases hy : r.2.1 with
    | none => rw [yearKeep, hy] at h1; cases h1
    | some y =>
        rw [yearKeep, hy] at h1
        exact ⟨y, rfl, of_decide_eq_true h1⟩
  · cases hv : r.2.2 with
    | none => rw [dropnaKeep, hv] at h2; simp at h2
    | some v => exact ⟨v, rfl⟩

lemma prepare_map_not_nan (t : WideTable) :
    ∀ g ∈ (prepare_oecd_data t).map fun r => optToFV r.2.2, g.isNan = false := by
  intro g hg
  rcases List.mem_map.mp hg with ⟨r, hr, hrg⟩
  rcases (mem_prepare t r hr).2 with ⟨v, hv⟩
  rw [← hrg, hv]
  rfl

/-- C4 counterexample: a wide table whose single year header coerces to the
non-integer number `2010.5` produces an output row retained with that
non-integer year, so "retains only rows whose year label coerces to an
integer ≥ 2010" fails as stated. -/
theorem reshaper_integer_year_counterexample :
    prepare_oecd_data tFrac = [("DE", some (4021/2), some 1)]
    ∧ ¬∃ m : ℤ, ((4021 : ℚ)/2) = (m : ℚ) := by
  constructor
  · simp [prepare_oecd_data, filterStage, melt, tFrac, yearKeep, dropnaKeep]
    norm_num
  · rintro ⟨m, hm⟩
    have h4 : (4021 : ℚ) = (2 * m : ℤ) := by
      push_cast
      linarith
    have h5 : (4021 : ℤ) = 2 * m := by exact_mod_cast h4
    omega

/-- C4 amended: the reshaper retains exactly the melted rows whose year
label coerces to a NUMBER `≥ 2010` (integrality is not enforced) and whose
value coerces to a number; rows failing either coercion are dropped
without error; every surviving row carries a present year `≥ 2010` and a
present value; and an empty result is returned silently. -/
theorem reshaper_output_amended (t : WideTable) :
    prepare_oecd_data t = (melt t).filter (fun r => yearKeep r && dropnaKeep r)
    ∧ (∀ r ∈ prepare_oecd_data t,
        (∃ y, r.2.1 = some y ∧ (2010 : ℚ) ≤ y) ∧ ∃ v, r.2.2 = some v)
    ∧ prepare_oecd_data ⟨["Germany"], [(none, [some 5])]⟩ = [] := by
  refine ⟨?_, fun r hr => mem_prepare t r hr, rfl⟩
  unfold prepare_oecd_data filterStage
  rw [List.filter_filter]
  exact List.filter_congr fun x _ => Bool.and_comm _ _

/-- Witness for the amended C4 at the concrete table `tGermany`: the
surviving row `(Germany, 2017, 4)` has a present year `≥ 2010` and a
present value. -/
theorem reshaper_output_amended_witness :
    (∃ y, (("Germany", some 2017, some 4) : LongRow).2.1 = some y ∧ (2010 : ℚ) ≤ y)
    ∧ ∃ v, (("Germany", some 2017, some 4) : LongRow).2.2 = some v :=
  (reshaper_output_amended tGermany).2.1 ("Germany", some 2017, some 4) (by decide)

/-- C7 counterexample: the nonempty long table `[(Germany, 2017, 4)]` is
already long, already year-filtered and already coerced (its single row
passes both filters), yet re-running the reshaper on it raises pandas'
`ValueError` from `melt`'s `value_name` validation — an error, never the
table itself, so the re-run is not a no-op. -/
theorem reshaper_idempotence_counterexample :
    resubmit_prepare_oecd_data [("Germany", some 2017, some 4)] =
      Except.error "value_name (Value) cannot match an element in the DataFrame columns."
    ∧ resubmit_prepare_oecd_data [("Germany", some 2017, some 4)] ≠
        Except.ok [("Germany", some 2017, some 4)]
    ∧ yearKeep ("Germany", some 2017, some 4) = true
    ∧ dropnaKeep ("Germany", some 2017, some 4) = true := by
  refine ⟨rfl, ?_, by decide, by decide⟩
  intro h
  exact Except.noConfusion h

/-- C7 amended: re-running the full reshaper on its own long output raises
`ValueError` for every input — `melt` validates `value_name` (`"Value"`)
against the frame's existing columns before doing anything else — rather
than returning the input table; the reshaper's year-filter and dropna
stage alone, re-applied to reshaper output, is a no-op. -/
theorem reshaper_idempotence_amended (rows : List LongRow) (t : WideTable) :
    resubmit_prepare_oecd_data rows =
      Except.error "value_name (Value) cannot match an element in the DataFrame columns."
    ∧ filterStage (prepare_oecd_data t) = prepare_oecd_data t := by
  constructor
  · rfl
  · have hmem : ∀ r ∈ prepare_oecd_data t, yearKeep r = true ∧ dropnaKeep r = true := by
      intro r hr
      unfold prepare_oecd_data filterStage at hr
      exact ⟨(List.mem_filter.mp (List.mem_filter.mp hr).1).2, (List.mem_filter.mp hr).2⟩
    unfold filterStage
    rw [List.filter_eq_self.mpr fun r hr => (hmem r hr).1,
      List.filter_eq_self.mpr fun r hr => (hmem r hr).2]

/-- C10.  Every row of the reshaper's output carries a present (non-`NaN`)
year `≥ 2010` and a present value; hence a growth series read from that
output contains no `NaN` cell, and the cumulative-index fold over it never
takes its missing-growth carry-forward branch: every step multiplies by
`1 + growth/100`. -/
theorem prepare_no_missing_spec (t : WideTable) :
    (∀ r ∈ prepare_oecd_data t,
        (∃ y, r.2.1 = some y ∧ (2010 : ℚ) ≤ y) ∧ ∃ v, r.2.2 = some v)
    ∧ (∀ g ∈ (prepare_oecd_data t).map fun r => optToFV r.2.2, g.isNan = false)
    ∧ (∀ (i : ℕ) (prev g : FV),
        (Cumulative_Index ((prepare_oecd_data t).map fun r => optToFV r.2.2))[i]? = some prev →
        ((prepare_oecd_data t).map fun r => optToFV r.2.2)[i+1]? = some g →
        (Cumulative_Index ((prepare_oecd_data t).map fun r => optToFV r.2.2))[i+1]? =
          some (prev.mul ((FV.fin 1).add (g.div (FV.fin 100))))) := by
  refine ⟨fun r hr => mem_prepare t r hr, prepare_map_not_nan t, ?_⟩
  intro i prev g hprev hg
  have hnan : g.isNan = false := prepare_map_not_nan t g (mem_of_getElem_some hg)
  rw [Cumulative_Index_getElem_succ, hprev, hg]
  simp [cumIdxStep, hnan]

/-- Witness for C10 at the concrete table `tGermany`: the index step from
position 0 to 1 multiplies `100` by `1 + 6/100`. -/
theorem prepare_no_missing_spec_witness :
    (Cumulative_Index ((prepare_oecd_data tGermany).map fun r => optToFV r.2.2))[1]? =
      some ((FV.fin 100).mul ((FV.fin 1).add ((FV.fin 6).div (FV.fin 100)))) :=
  (prepare_no_missing_spec tGermany).2.2 0 (FV.fin 100) (FV.fin 6) (by decide) (by decide)

/-- C9.  For every `start_year`, the COVID-19 shaded span (from the
fractional-year coordinate of 2020-03-11 to that of 2023-05-01) is drawn
unconditionally, while a vertical line or text label is drawn exactly for
the milestones whose year is at or after `start_year`; in particular the
pandemic shading still appears for `start_year = 2024 > 2023`. -/
theorem add_regulation_lines_spec (sy : ℤ) :
    DrawOp.span (xPos COVID_START) (xPos COVID_END) ∈ add_regulation_lines sy
    ∧ (∀ name d, (name, d) ∈ REGULATIONS → sy ≤ d.year →
        DrawOp.vline (xPos d) ∈ add_regulation_lines sy
        ∧ DrawOp.text (xPos d + 1/10) name ∈ add_regulation_lines sy)
    ∧ (∀ x : ℚ, DrawOp.vline x ∈ add_regulation_lines sy →
        ∃ nd ∈ REGULATIONS, x = xPos nd.2 ∧ sy ≤ nd.2.year)
    ∧ (∀ (x : ℚ) (name : String), DrawOp.text x name ∈ add_regulation_lines sy →
        ∃ d, (name, d) ∈ REGULATIONS ∧ x = xPos d + 1/10 ∧ sy ≤ d.year)
    ∧ DrawOp.span (xPos COVID_START) (xPos COVID_END) ∈ add_regulation_lines 2024 := by
  refine ⟨List.mem_cons_self _ _, ?_, ?_, ?_, List.mem_cons_self _ _⟩
  · intro name d hd hy
    constructor <;>
      (apply List.mem_cons_of_mem
       apply List.mem_flatMap.mpr
       exact ⟨(name, d), hd, by simp [hy]⟩)
  · intro x hx
    rcases List.mem_cons.mp hx with h | h
    · cases h
    rcases List.mem_flatMap.mp h with ⟨nd, hnd, hin⟩
    by_cases hy : sy ≤ nd.2.year
    · rw [if_pos hy] at hin
      rcases List.mem_cons.mp hin with h2 | h2
      · exact ⟨nd, hnd, by injection h2, hy⟩
      · rcases List.mem_cons.mp h2 with h3 | h3
        · cases h3
        · cases h3
    · rw [if_neg hy] at hin
      cases hin
  · intro x name hx
    rcases List.mem_cons.mp hx with h | h
    · cases h
    rcases List.mem_flatMap.mp h with ⟨nd, hnd, hin⟩
    by_cases hy : sy ≤ nd.2.year
    · rw [if_pos hy] at hin
      rcases List.mem_cons.mp hin with h2 | h2
      · cases h2
      · rcases List.mem_cons.mp h2 with h3 | h3
        · refine ⟨nd.2, ?_, ?_, hy⟩
          · have hn : name = nd.1 := by injection h3
            rw [hn]
            exact Prod.mk.eta ▸ hnd
          · injection h3
        · cases h3
    · rw [if_neg hy] at hin
      cases hin

/-- Witness for C9 with `start_year = 2019`: the DSA milestone (November
2022) gets both its vertical line and its text label. -/
theorem add_regulation_lines_spec_witness :
    DrawOp.vline (xPos ⟨2022, 11, 16⟩) ∈ add_regulation_lines 2019
    ∧ DrawOp.text (xPos ⟨2022, 11, 16⟩ + 1/10) "DSA" ∈ add_regulation_lines 2019 :=
  (add_regulation_lines_spec 2019).2.1 "DSA" ⟨2022, 11, 16⟩ (by simp [REGULATIONS]) (by decide)

lemma meanSkipNa_perm {vs vs' : List (Option ℚ)} (h : vs.Perm vs') :
    meanSkipNa vs = meanSkipNa vs' := by
  have hfm : (vs.filterMap id).Perm (vs'.filterMap id) := h.filterMap id
  unfold meanSkipNa
  by_cases hnil : vs.filterMap id = []
  · have hnil' : vs'.filterMap id = [] := by
      rw [hnil] at hfm
      exact hfm.symm.eq_nil
    simp [hnil, hnil']
  · have hnil' : vs'.filterMap id ≠ [] := by
      intro h0
      rw [h0] at hfm
      exact hnil hfm.eq_nil
    simp only [if_neg hnil, if_neg hnil', hfm.sum_eq, hfm.length_eq]

lemma groupKeys_perm {rows rows' : List (GKey × Option ℚ)} (h : rows.Perm rows') :
    groupKeys rows = groupKeys rows' := by
  have hd : ((rows.map fun r => r.1).dedup).Perm ((rows'.map fun r => r.1).dedup) :=
    (h.map _).dedup
  exact List.eq_of_perm_of_sorted
    (((List.perm_insertionSort keyLE _).trans hd).trans (List.perm_insertionSort keyLE _).symm)
    (List.sorted_insertionSort keyLE _) (List.sorted_insertionSort keyLE _)

lemma matchingVals_perm {rows rows' : List (GKey × Option ℚ)} (h : rows.Perm rows')
    (k : GKey) : (matchingVals rows k).Perm (matchingVals rows' k) :=
  (h.filter _).map _

/-- C5.  SeriesAggregator: grouping by key and reducing by arithmetic mean
is invariant under any permutation of the input rows, produces no
duplicate key, assigns each key the arithmetic mean of all matching input
values, and returns a single observation's value unchanged. -/
theorem series_aggregator_spec (rows rows' : List (GKey × Option ℚ))
    (hperm : rows.Perm rows') :
    groupMean rows = groupMean rows'
    ∧ ((groupMean rows).map fun r => r.1).Nodup
    ∧ (∀ k v, (k, v) ∈ groupMean rows → v = meanSkipNa (matchingVals rows k))
    ∧ (∀ k q, rows.filter (fun r => decide (r.1 = k)) = [(k, some q)] →
        (k, some q) ∈ groupMean rows) := by
  refine ⟨?_, ?_, ?_, ?_⟩
  · unfold groupMean
    rw [groupKeys_perm hperm]
    exact List.map_congr_left fun k _ =>
      congrArg (Prod.mk k) (meanSkipNa_perm (matchingVals_perm hperm k))
  · unfold groupMean
    rw [List.map_map]
    have hid : ((fun r : GKey × Option ℚ => r.1) ∘
        fun k => (k, meanSkipNa (matchingVals rows k))) = id := rfl
    rw [hid, List.map_id]
    exact ((List.perm_insertionSort keyLE _).nodup_iff).mpr (List.nodup_dedup _)
  · intro k v hkv
    rcases List.mem_map.mp hkv with ⟨k', _, he⟩
    injection he with h1 h2
    rw [← h2, h1]
  · intro k q hfilter
    have hsing : (k, some q) ∈ rows.filter fun r => decide (r.1 = k) := by
      rw [hfilter]
      exact List.mem_singleton.mpr rfl
    have hkmem : k ∈ rows.map fun r => r.1 :=
      List.mem_map.mpr ⟨(k, some q), List.mem_of_mem_filter hsing, rfl⟩
    have hkeys : k ∈ groupKeys rows :=
      (List.perm_insertionSort keyLE _).mem_iff.mpr (List.mem_dedup.mpr hkmem)
    have hval : meanSkipNa (matchingVals rows k) = some q := by
      unfold matchingVals
      rw [hfilter]
      simp [meanSkipNa]
    exact List.mem_map.mpr ⟨k, hkeys, by rw [hval]⟩

/-- Witness for C5: swapping the two rows of a duplicated
`("DE", 2010)` key leaves the aggregated output unchanged. -/
theorem series_aggregator_spec_witness :
    groupMean [(("DE", 2010), some (2 : ℚ)), (("DE", 2010), some 4)] =
      groupMean [(("DE", 2010), some (4 : ℚ)), (("DE", 2010), some 2)] :=
  (series_aggregator_spec _ _ (List.Perm.swap _ _ _)).1
